import Mathlib

/-!
Shallow embedding of the Five Forks Fire Weather fuel-moisture and
fire-behavior calculators.

Conventions of the embedding:
- JavaScript numbers are modelled as real numbers.  A JavaScript value as it
  reaches the defensive parsing helpers is modelled by `JSVal`, which records
  exactly the distinctions `safeParse` can observe (finite number, non-finite
  number, string with or without a finite numeric reading, null/undefined,
  anything else).
- `Number(v.toFixed(k))` is modelled as rounding to `k` decimal places
  (`round1`, `round2`); Mathlib's `round` rounds ties up, matching the
  ECMAScript `toFixed` tie rule (choose the larger candidate).
- `Number.isFinite` checks on computed model values are identically true in
  the real-number semantics (every real is finite), and are modelled as such.
-/

namespace FiveForks

/-- A JavaScript value as observed by `safeParse` in fuel-calculator.js. -/
inductive JSVal where
  | num (x : ℝ)
  | nonfinite
  | str (parsed : Option ℝ)
  | nullOrUndef
  | other

/-- fuel-calculator.js `safeParse(value, fallback)`: numbers pass through when
finite; strings pass through their finite numeric reading when the trimmed
string is nonempty and parses; everything else yields the fallback. -/
def safeParse (value : JSVal) (fallback : ℝ) : ℝ :=
  match value with
  | .num x => x
  | .nonfinite => fallback
  | .str (some n) => n
  | .str none => fallback
  | .nullOrUndef => fallback
  | .other => fallback

/-- fuel-calculator.js `clamp(v, min, max)`: parse with the lower bound as
fallback, then clamp into the interval. -/
def clamp (v : JSVal) (lo hi : ℝ) : ℝ :=
  min hi (max lo (safeParse v lo))

/-- fuel-calculator.js `round1(v)` = `Number(Number(v).toFixed(1))`, modelled
as rounding to one decimal place. -/
noncomputable def round1 (v : ℝ) : ℝ :=
  ((round (10 * v) : ℤ) : ℝ) / 10

/-- `x.toFixed(2)` re-read as a number, modelled as rounding to two decimals. -/
noncomputable def round2 (v : ℝ) : ℝ :=
  ((round (100 * v) : ℤ) : ℝ) / 100

/-- fuel-calculator.js `computeEMC(tempF, rh)`: three-term empirical EMC fit,
clamped to [0.1, 100] and rounded to one decimal.  The source's
`!Number.isFinite(emc)` disjunct of the first guard is identically false in
the real-number semantics. -/
noncomputable def computeEMC (tempF rh : JSVal) : ℝ :=
  let T := safeParse tempF 70
  let H := clamp rh 0 100
  let term1 := 0.942 * H ^ (0.679 : ℝ)
  let term2 := 11 * Real.exp ((H - 100) / 10)
  let term3 := 0.18 * (21.1 - (T - 32) * (5 / 9)) * (1 - Real.exp (-0.115 * H))
  let emc := term1 + term2 + term3
  let emcLo := if emc < 0.1 then 0.1 else emc
  let emcHi := if emcLo > 100 then 100 else emcLo
  round1 emcHi

/-- fuel-calculator.js `stepMoisture(initial, emc, hours, timeLag)`:
exponential time-lag relaxation toward the equilibrium, with defensive
parsing, `tau` floored at 0.0001, and the result rounded to one decimal. -/
noncomputable def stepMoisture (initial emc hours timeLag : JSVal) : ℝ :=
  let M0 := safeParse initial (safeParse emc 5)
  let E := safeParse emc 5
  let t := max 0 (safeParse hours 0)
  let tau := max 0.0001 (safeParse timeLag 1)
  let k := Real.exp (-t / tau)
  round1 (E + (M0 - E) * k)

/-- One forecast entry as consumed by `runModel`; each numeric field is a raw
JavaScript value, the label an optional string. -/
structure ForecastEntry where
  label : Option String
  temp : JSVal
  rh : JSVal
  wind : JSVal
  hours : JSVal

/-- One row of `runModel`'s `dailyResults`. -/
structure DailyResult where
  day : String
  temp : ℝ
  rh : ℝ
  wind : ℝ
  hours : ℝ
  emc : ℝ
  moisture1Hr : ℝ
  moisture10Hr : ℝ

/-- `runModel`'s `summary` object. -/
structure ModelSummary where
  firstCritical1HrDay : Option String
  final1Hr : ℝ
  final10Hr : ℝ

/-- `runModel`'s result object. -/
structure ModelResults where
  initial1hr : ℝ
  initial10hr : ℝ
  dailyResults : List DailyResult
  summary : ModelSummary

/-- The label `(day && day.label) || ` followed by a default of the form
Day (idx+1): a missing or empty label falls back to the default. -/
def entryLabel (label : Option String) (idx : ℕ) : String :=
  match label with
  | some s => if s = "" then "Day " ++ toString (idx + 1) else s
  | none => "Day " ++ toString (idx + 1)

/-- The body of `runModel`'s `entries.forEach` callback: parse the entry's
fields, compute the day's EMC, and relax both moisture classes. -/
noncomputable def runStep (prev1 prev10 : ℝ) (idx : ℕ) (day : ForecastEntry) :
    DailyResult :=
  let temp := safeParse day.temp 70
  let rh := clamp day.rh 0 100
  let wind := safeParse day.wind 0
  let hours := max 0 (safeParse day.hours 12)
  let emc := computeEMC (.num temp) (.num rh)
  let m1 := stepMoisture (.num prev1) (.num emc) (.num hours) (.num 1)
  let m10 := stepMoisture (.num prev10) (.num emc) (.num hours) (.num 10)
  { day := entryLabel day.label idx, temp := temp, rh := rh, wind := wind,
    hours := hours, emc := emc, moisture1Hr := m1, moisture10Hr := m10 }

/-- The `entries.forEach` loop of `runModel`: thread the 1-hr and 10-hr
moisture through the entries in order, collecting one `DailyResult` each. -/
noncomputable def runSteps (prev1 prev10 : ℝ) (idx : ℕ) :
    List ForecastEntry → List DailyResult
  | [] => []
  | day :: rest =>
    let d := runStep prev1 prev10 idx day
    d :: runSteps d.moisture1Hr d.moisture10Hr (idx + 1) rest

/-- fuel-calculator.js `runModel(initial1hr, initial10hr, forecastEntries)`.
The source's `Number.isFinite(d.moisture1Hr)` conjunct in the critical-day
search is identically true in the real-number semantics.  The source reads
the final values from the last `dailyResults` row when the list is nonempty
and otherwise keeps the starting values. -/
noncomputable def runModel (initial1hr initial10hr : JSVal)
    (forecastEntries : List ForecastEntry) : ModelResults :=
  let start1 := safeParse initial1hr 8
  let start10 := safeParse initial10hr 10
  let ds := runSteps start1 start10 0 forecastEntries
  let firstCrit := (ds.find? (fun d => decide (d.moisture1Hr ≤ 6))).map
    (fun d => d.day)
  match ds.getLast? with
  | some last =>
    { initial1hr := start1, initial10hr := start10, dailyResults := ds,
      summary := { firstCritical1HrDay := firstCrit,
                   final1Hr := last.moisture1Hr,
                   final10Hr := last.moisture10Hr } }
  | none =>
    { initial1hr := start1, initial10hr := start10, dailyResults := ds,
      summary := { firstCritical1HrDay := firstCrit,
                   final1Hr := start1, final10Hr := start10 } }

/-! The fire-behavior calculator (the unnamed source file): a polynomial EMC
variant, the NFDRS time-lag update, rainfall-keyed initial moisture, fuel
presets, and the simplified rate-of-spread model. -/

/-- Fire-behavior calculator `emcPercent(tempF, rh)`: simplified polynomial
EMC approximation, clamped to [1.0, 35.0]. -/
noncomputable def emcPercent (tempF rh : ℝ) : ℝ :=
  let rhC := max 0.0 (min 100.0 rh)
  let tC := (tempF - 32.0) * 5.0 / 9.0
  let r := rhC / 100.0
  let emc := r * (4.0 + 0.2 * tC) + r ^ 2 * (0.5 + 0.01 * tC)
  max 1.0 (min 35.0 emc)

/-- Fire-behavior calculator `updateTowardEMC(mPrev, emc, dtHours, tauHours)`:
NFDRS exponential lag response; `tauHours ≤ 0` short-circuits to the
equilibrium value. -/
noncomputable def updateTowardEMC (mPrev emc dtHours tauHours : ℝ) : ℝ :=
  if tauHours ≤ 0 then emc
  else emc + (mPrev - emc) * Real.exp (-dtHours / tauHours)

/-- The m1/m10/m100 triple returned by `initialMoistureFromRain`. -/
structure Moisture3 where
  m1 : ℝ
  m10 : ℝ
  m100 : ℝ

/-- Fire-behavior calculator `initialMoistureFromRain(rainInches)`: four-bucket
step function on rainfall, strict `<` thresholds at 0.10, 0.30, 0.75. -/
noncomputable def initialMoistureFromRain (rainInches : ℝ) : Moisture3 :=
  let r := max 0.0 rainInches
  if r < 0.10 then { m1 := 18.0, m10 := 15.0, m100 := 14.0 }
  else if r < 0.30 then { m1 := 22.0, m10 := 17.0, m100 := 14.5 }
  else if r < 0.75 then { m1 := 26.0, m10 := 20.0, m100 := 16.0 }
  else { m1 := 30.0, m10 := 25.0, m100 := 20.0 }

/-- One fuel preset record of `FUEL_PRESETS`. -/
structure FuelPreset where
  name : String
  description : String
  baseROS : ℝ
  windSensitivity : ℝ
  moistureSensitivity : ℝ

/-- The `pasture_grass` preset. -/
def pasture_grass : FuelPreset :=
  { name := "Pasture Grass", description := "Cured grass, highly wind-driven",
    baseROS := 20.0, windSensitivity := 1.30, moistureSensitivity := 1.70 }

/-- The `hardwood_deadfall` preset. -/
def hardwood_deadfall : FuelPreset :=
  { name := "Hardwood Dead Fall",
    description := "Heavy dead branches, shaded litter",
    baseROS := 3.5, windSensitivity := 0.55, moistureSensitivity := 1.30 }

/-- The `leaf_pine_litter` preset. -/
def leaf_pine_litter : FuelPreset :=
  { name := "Leaf & Pine Litter",
    description := "Mixed hardwood/pine forest floor",
    baseROS := 6.0, windSensitivity := 0.85, moistureSensitivity := 1.40 }

/-- The own properties of the `FUEL_PRESETS` object literal: exactly the
three presets.  This is the table itself; the JS property access
`FUEL_PRESETS[fuelType]` additionally walks the prototype chain and is
modelled by `FUEL_PRESETS_access` below. -/
def FUEL_PRESETS (key : String) : Option FuelPreset :=
  if key = "pasture_grass" then some pasture_grass
  else if key = "hardwood_deadfall" then some hardwood_deadfall
  else if key = "leaf_pine_litter" then some leaf_pine_litter
  else none

/-- The members every plain object literal inherits from `Object.prototype`
(ECMA-262), paired with the value of the member's own `name` property (the
source reads `fuel.name` for the summary).  Property access on
`FUEL_PRESETS` yields these truthy inherited functions — or, for
`__proto__`, the prototype object itself, whose `name` reads as undefined —
even though they are not fuel presets. -/
def OBJECT_PROTOTYPE_MEMBERS : List (String × Option String) :=
  [("constructor", some "Object"),
   ("hasOwnProperty", some "hasOwnProperty"),
   ("isPrototypeOf", some "isPrototypeOf"),
   ("propertyIsEnumerable", some "propertyIsEnumerable"),
   ("toLocaleString", some "toLocaleString"),
   ("toString", some "toString"),
   ("valueOf", some "valueOf"),
   ("__defineGetter__", some "__defineGetter__"),
   ("__defineSetter__", some "__defineSetter__"),
   ("__lookupGetter__", some "__lookupGetter__"),
   ("__lookupSetter__", some "__lookupSetter__"),
   ("__proto__", none)]

/-- What the JS property access `FUEL_PRESETS[fuelType]` yields, as far as
the `if (!fuel)` guards and the later member reads can observe: one of the
three own presets; a truthy member inherited from `Object.prototype`, whose
fuel fields (`baseROS`, sensitivities) read as undefined and of which only
the `name` property matters downstream; or the falsy undefined. -/
inductive FuelLookup where
  | preset (fuel : FuelPreset)
  | inherited (nameProp : Option String)
  | undefinedProp

/-- JS property access on the `FUEL_PRESETS` object literal: own properties
first, then the prototype chain; only a key found in neither yields the
falsy undefined, so only then does `if (!fuel) return null` fire. -/
def FUEL_PRESETS_access (key : String) : FuelLookup :=
  match FUEL_PRESETS key with
  | some fuel => .preset fuel
  | none =>
    match OBJECT_PROTOTYPE_MEMBERS.find? (fun p => p.1 == key) with
    | some p => .inherited p.2
    | none => .undefinedProp

/-- Fire-behavior calculator `moistureMultiplier(m1, mRef, k)`: exponential
moisture damping, clamped to [0.05, 2.5]. -/
noncomputable def moistureMultiplier (m1 mRef k : ℝ) : ℝ :=
  let mult := Real.exp (-k * (m1 - mRef) / 10.0)
  max 0.05 (min 2.5 mult)

/-- Fire-behavior calculator `windMultiplier(windMph, sensitivity)`:
superlinear wind response above 5 mph, clamped to [0.5, 4.0]. -/
noncomputable def windMultiplier (windMph sensitivity : ℝ) : ℝ :=
  let wind := max 0.0 windMph
  let w := max 0.0 (wind - 5.0)
  let mult := 1.0 + sensitivity * (w / 25.0) ^ (1.15 : ℝ)
  max 0.5 (min 4.0 mult)

/-- Fire-behavior calculator `slopeMultiplier(slopePct)`: linear slope effect,
clamped to [1.0, 2.5]. -/
noncomputable def slopeMultiplier (slopePct : ℝ) : ℝ :=
  let s := max 0.0 slopePct
  let mult := 1.0 + 0.02 * s
  max 1.0 (min 2.5 mult)

/-- Fire-behavior calculator `rosChPerHour(fuel, m1, windMph, slopePct)`:
base rate of spread scaled by the three multipliers, floored at 0.1. -/
noncomputable def rosChPerHour (fuel : FuelPreset) (m1 windMph slopePct : ℝ) :
    ℝ :=
  let mRef := 9.0
  let mm := moistureMultiplier m1 mRef fuel.moistureSensitivity
  let wm := windMultiplier windMph fuel.windSensitivity
  let sm := slopeMultiplier slopePct
  let ros := fuel.baseROS * mm * wm * sm
  max 0.1 ros

/-- Fire-behavior calculator `chPerHourToFtPerMin(chph)`. -/
noncomputable def chPerHourToFtPerMin (chph : ℝ) : ℝ := chph * 66.0 / 60.0

/-- One row of `simulate24HourDrying`'s hourly results; the `toFixed` strings
of the source are modelled as decimally rounded reals.  The rate-of-spread
fields are `Option ℝ`: `some` of the real value for a genuine preset, and
`none` for the IEEE NaN produced when the looked-up "fuel" is an inherited
`Object.prototype` member whose numeric fields read as undefined (NaN itself
has no real-number representative). -/
structure HourResult where
  hour : ℕ
  period : String
  emc : ℝ
  m1 : ℝ
  m10 : ℝ
  m100 : ℝ
  rosChPerHour : Option ℝ
  rosFtPerMin : Option ℝ

/-- `simulate24HourDrying`'s summary object; `fuelType` records `fuel.name`,
which for the inherited `__proto__` object reads as undefined (`none`). -/
structure SimSummary where
  minM1Hour : ℕ
  minM1Value : ℝ
  maxROSchPerHour : Option ℝ
  maxROSFtPerMin : Option ℝ
  endOfDayM1 : ℝ
  endOf24hM1 : ℝ
  fuelType : Option String

/-- `simulate24HourDrying`'s result object. -/
structure SimResult where
  hourly : List HourResult
  summary : SimSummary

/-- The two hourly loops of `simulate24HourDrying`, fused: hours below 10 use
the day weather, the rest the night weather; `remaining` counts the hours
still to simulate.  `rosOf` is the per-hour call
`rosChPerHour(fuel, m1, windMph, 0.0)`, abstracted over the looked-up fuel:
a real value for a preset, NaN (`none`) for an inherited prototype member
(the moisture recurrence itself never touches the fuel and stays real). -/
noncomputable def simHours (rosOf : ℝ → Option ℝ)
    (dayTempF dayRHmin nightTempF nightRHmax : ℝ)
    (h : ℕ) (remaining : ℕ) (m1 m10 m100 : ℝ) : List HourResult :=
  match remaining with
  | 0 => []
  | n + 1 =>
    let emc := if h < 10 then emcPercent dayTempF dayRHmin
               else emcPercent nightTempF nightRHmax
    let m1n := updateTowardEMC m1 emc 1.0 1.0
    let m10n := updateTowardEMC m10 emc 1.0 10.0
    let m100n := updateTowardEMC m100 emc 1.0 100.0
    let ros := rosOf m1n
    { hour := h, period := if h < 10 then "day" else "night",
      emc := round1 emc, m1 := round1 m1n, m10 := round1 m10n,
      m100 := round1 m100n, rosChPerHour := ros.map round2,
      rosFtPerMin := ros.map (fun r => round2 (chPerHourToFtPerMin r)) }
      :: simHours rosOf dayTempF dayRHmin nightTempF nightRHmax
           (h + 1) n m1n m10n m100n

/-- The source's `results.reduce((min, cur) => ...)` without an initial value:
seeded by the first element, keeping the earliest row with minimal `m1`;
`none` only on an empty list (where the JavaScript `reduce` would throw, a
case `simulate24HourDrying` never reaches since it builds 24 rows). -/
noncomputable def reduceMinM1 : List HourResult → Option HourResult
  | [] => none
  | x :: xs => some (xs.foldl (fun mn cur => if cur.m1 < mn.m1 then cur else mn) x)

/-- The body of `simulate24HourDrying` past the `if (!fuel)` guard, shared by
the preset and inherited-member cases (the source runs the same statements
for both; only what `rosChPerHour` and `fuel.name` yield differs).  The
source indexes `results[9]` and `results[23]` directly; the fallthrough
branch is unreachable because the hourly list always has 24 rows. -/
noncomputable def sim24Body (rosOf : ℝ → Option ℝ) (fuelName : Option String)
    (dayTempF dayRHmin nightTempF nightRHmax rainInches : ℝ) :
    Option SimResult :=
  let initial := initialMoistureFromRain rainInches
  let hourly := simHours rosOf dayTempF dayRHmin nightTempF nightRHmax
    0 24 initial.m1 initial.m10 initial.m100
  match reduceMinM1 hourly, hourly[9]?, hourly[23]? with
  | some mn, some r9, some r23 =>
    some { hourly := hourly,
           summary := { minM1Hour := mn.hour, minM1Value := mn.m1,
                        maxROSchPerHour := mn.rosChPerHour,
                        maxROSFtPerMin := mn.rosFtPerMin,
                        endOfDayM1 := r9.m1, endOf24hM1 := r23.m1,
                        fuelType := fuelName } }
  | _, _, _ => none

/-- Fire-behavior calculator `simulate24HourDrying(...)`: the `if (!fuel)`
guard returns `null` (here `none`) only when the property access yields the
falsy undefined.  For one of the three presets the simulation runs with that
preset's numbers; for a truthy member inherited from `Object.prototype` (a
key like "toString") the guard does not fire and the simulation runs with
undefined fuel fields, producing NaN (`none`) rate-of-spread values but a
full result object. -/
noncomputable def simulate24HourDrying
    (dayTempF dayRHmin nightTempF nightRHmax rainInches windMph : ℝ)
    (fuelType : String) : Option SimResult :=
  match FUEL_PRESETS_access fuelType with
  | .undefinedProp => none
  | .preset fuel =>
    sim24Body (fun m1 => some (rosChPerHour fuel m1 windMph 0.0))
      (some fuel.name) dayTempF dayRHmin nightTempF nightRHmax rainInches
  | .inherited nameProp =>
    sim24Body (fun _ => none) nameProp
      dayTempF dayRHmin nightTempF nightRHmax rainInches

/-- Fire-behavior calculator `calculateFireBehavior(...)`: the `if (!fuel)`
guard — the first statement of the source function — returns `null` (outer
`none`) only when the property access yields the falsy undefined; for a
truthy member inherited from `Object.prototype` the guard does not fire and
the numeric result is NaN (inner `none`).  The source file is cut off
immediately after the guard and the EMC computation; the remainder is
Modelled from the spec: per §6, `rateOfSpread(fuelKey, oneHourMoisture,
windMph, slopePct) → number | InvalidFuelError`, so for a known fuel the
function yields the numeric rate of spread after one hour of drying of the
starting 1-hr moisture toward the current EMC. -/
noncomputable def calculateFireBehavior (tempF rh windMph : ℝ)
    (fuelType : String) (initialM1 : ℝ) : Option (Option ℝ) :=
  match FUEL_PRESETS_access fuelType with
  | .undefinedProp => none
  | .preset fuel =>
    let emc := emcPercent tempF rh
    let m1 := updateTowardEMC initialM1 emc 1.0 1.0
    some (some (rosChPerHour fuel m1 windMph 0.0))
  | .inherited _ => some none

/-! Helper lemmas about decimal rounding. -/

/-- A real number that is an integer multiple of one tenth. -/
def isTenth (x : ℝ) : Prop := ∃ k : ℤ, x = (k : ℝ) / 10

lemma isTenth_round1 (x : ℝ) : isTenth (round1 x) :=
  ⟨round (10 * x), rfl⟩

lemma le_round1 {q : ℤ} {x : ℝ} (h : (q : ℝ) / 10 ≤ x) :
    (q : ℝ) / 10 ≤ round1 x := by
  unfold round1
  have hq : q ≤ round (10 * x) := by
    have h1 : (q : ℝ) ≤ 10 * x := by linarith
    calc q = round ((q : ℝ)) := (round_intCast q).symm
    _ ≤ round (10 * x) := by
        rw [round_eq, round_eq]
        exact Int.floor_mono (by linarith)
  have : (q : ℝ) ≤ ((round (10 * x) : ℤ) : ℝ) := by exact_mod_cast hq
  linarith

lemma round1_le {q : ℤ} {x : ℝ} (h : x ≤ (q : ℝ) / 10) :
    round1 x ≤ (q : ℝ) / 10 := by
  unfold round1
  have hq : round (10 * x) ≤ q := by
    have h1 : 10 * x ≤ (q : ℝ) := by linarith
    calc round (10 * x) ≤ round ((q : ℝ)) := by
          rw [round_eq, round_eq]
          exact Int.floor_mono (by linarith)
    _ = q := round_intCast q
  have : ((round (10 * x) : ℤ) : ℝ) ≤ (q : ℝ) := by exact_mod_cast hq
  linarith

lemma round1_mem_of_mem {x : ℝ} (h1 : (0.1 : ℝ) ≤ x) (h2 : x ≤ 100) :
    (0.1 : ℝ) ≤ round1 x ∧ round1 x ≤ 100 := by
  constructor
  · have h := le_round1 (q := 1) (x := x) (by push_cast; linarith)
    push_cast at h
    linarith
  · have h := round1_le (q := 1000) (x := x) (by push_cast; linarith)
    push_cast at h
    linarith

lemma clampGuard_mem (e : ℝ) :
    (0.1 : ℝ) ≤ (if (if e < 0.1 then (0.1 : ℝ) else e) > 100 then (100 : ℝ)
      else if e < 0.1 then (0.1 : ℝ) else e) ∧
    (if (if e < 0.1 then (0.1 : ℝ) else e) > 100 then (100 : ℝ)
      else if e < 0.1 then (0.1 : ℝ) else e) ≤ 100 := by
  split_ifs <;> constructor <;> linarith

/-! ### C1 — EMC clamp bounds -/

/-- C1: for relative humidity in [0,100] and temperature in [-50,150], the
three-term `computeEMC` lands in [0.1, 100] and the polynomial `emcPercent`
lands in [1.0, 35.0]; both are (trivially, in the real-number semantics)
finite. -/
theorem emc_variants_within_clamp_bounds (tempF rh : ℝ)
    (hrh0 : 0 ≤ rh) (hrh1 : rh ≤ 100) (ht0 : -50 ≤ tempF) (ht1 : tempF ≤ 150) :
    (0.1 ≤ computeEMC (.num tempF) (.num rh) ∧
      computeEMC (.num tempF) (.num rh) ≤ 100) ∧
    (1 ≤ emcPercent tempF rh ∧ emcPercent tempF rh ≤ 35) := by
  constructor
  · unfold computeEMC
    dsimp only [safeParse, clamp]
    exact round1_mem_of_mem (clampGuard_mem _).1 (clampGuard_mem _).2
  · unfold emcPercent
    dsimp only
    constructor
    · exact le_trans (by norm_num) (le_max_left (1.0 : ℝ) _)
    · exact max_le (by norm_num) (le_trans (min_le_left _ _) (by norm_num))

/-- Witness for C1 at temperature 70 °F, humidity 50 %. -/
theorem emc_variants_within_clamp_bounds_witness :
    (0.1 ≤ computeEMC (.num 70) (.num 50) ∧
      computeEMC (.num 70) (.num 50) ≤ 100) ∧
    (1 ≤ emcPercent 70 50 ∧ emcPercent 70 50 ≤ 35) :=
  emc_variants_within_clamp_bounds 70 50 (by norm_num) (by norm_num)
    (by norm_num) (by norm_num)

/-! ### C3 — unknown fuel key and the invalid-fuel guard -/

lemma simHours_length (rosOf : ℝ → Option ℝ) (a b c d : ℝ)
    (remaining : ℕ) :
    ∀ (h : ℕ) (m1 m10 m100 : ℝ),
      (simHours rosOf a b c d h remaining m1 m10 m100).length = remaining := by
  induction remaining with
  | zero => intro h m1 m10 m100; rfl
  | succ n ih =>
    intro h m1 m10 m100
    simp only [simHours, List.length_cons, ih]

lemma sim24Body_isSome (rosOf : ℝ → Option ℝ) (fuelName : Option String)
    (a b c d rain : ℝ) :
    (sim24Body rosOf fuelName a b c d rain).isSome = true := by
  unfold sim24Body
  dsimp only
  have hlen := simHours_length rosOf a b c d 24 0
    (initialMoistureFromRain rain).m1 (initialMoistureFromRain rain).m10
    (initialMoistureFromRain rain).m100
  rcases hh : simHours rosOf a b c d 0 24 (initialMoistureFromRain rain).m1
      (initialMoistureFromRain rain).m10 (initialMoistureFromRain rain).m100
    with _ | ⟨x, xs⟩
  · rw [hh] at hlen
    simp at hlen
  · rw [hh] at hlen
    have h9 : 9 < (x :: xs).length := by rw [hlen]; norm_num
    have h23 : 23 < (x :: xs).length := by rw [hlen]; norm_num
    rw [List.getElem?_eq_getElem h9, List.getElem?_eq_getElem h23]
    simp only [reduceMinM1, Option.isSome_some]

/-- C3 (code bug): the `if (!fuel)` guard tests only truthiness, but JS
property access on the FUEL_PRESETS object literal walks the prototype
chain.  At the failing input fuelType = "toString" the access yields the
truthy inherited `Object.prototype.toString`, the guard does not fire, and
`simulate24HourDrying` returns a full result object with NaN rate-of-spread
payload (and `calculateFireBehavior` a NaN number) instead of the documented
invalid-fuel `null` signal; only keys found nowhere on the prototype chain
(such as "chaparral") produce `null` as the claim requires. -/
theorem unknown_fuel_key_guard_leaks :
    (∀ a b c d e f : ℝ,
      (simulate24HourDrying a b c d e f "toString").isSome = true) ∧
    (∀ t h w m : ℝ, calculateFireBehavior t h w "toString" m = some none) ∧
    (∀ a b c d e f : ℝ, simulate24HourDrying a b c d e f "chaparral" = none) ∧
    (∀ t h w m : ℝ, calculateFireBehavior t h w "chaparral" m = none) := by
  have htos : FUEL_PRESETS_access "toString" =
      FuelLookup.inherited (some "toString") := rfl
  have hcha : FUEL_PRESETS_access "chaparral" = FuelLookup.undefinedProp := rfl
  refine ⟨?_, ?_, ?_, ?_⟩
  · intro a b c d e f
    unfold simulate24HourDrying
    rw [htos]
    exact sim24Body_isSome _ _ _ _ _ _ _
  · intro t h w m
    unfold calculateFireBehavior
    rw [htos]
  · intro a b c d e f
    unfold simulate24HourDrying
    rw [hcha]
  · intro t h w m
    unfold calculateFireBehavior
    rw [hcha]

/-! ### C4 — rate of spread never below the 0.1 floor -/

/-- C4: for every built-in fuel preset and in-range inputs, `rosChPerHour`
returns at least 0.1 chains/hour. -/
theorem rosChPerHour_ge_floor (key : String) (fuel : FuelPreset)
    (hkey : FUEL_PRESETS key = some fuel) (m1 windMph slopePct : ℝ)
    (hm : 0 ≤ m1) (hw : 0 ≤ windMph) (hs0 : 0 ≤ slopePct)
    (hs1 : slopePct ≤ 100) :
    0.1 ≤ rosChPerHour fuel m1 windMph slopePct := by
  unfold rosChPerHour
  exact le_max_left _ _

/-- Witness for C4 on pasture grass at reference conditions. -/
theorem rosChPerHour_ge_floor_witness :
    0.1 ≤ rosChPerHour pasture_grass 9 5 0 :=
  rosChPerHour_ge_floor "pasture_grass" pasture_grass rfl 9 5 0
    (by norm_num) (by norm_num) (by norm_num) (by norm_num)

/-! ### C6 — zero elapsed time -/

/-- C6 counterexample: `stepMoisture` rounds its result to one decimal, so at
zero elapsed hours it returns `round1 m`, not `m`; at m = 0.13 (tau = 1 > 0)
it returns 0.1 ≠ 0.13. -/
theorem stepMoisture_zero_time_not_identity :
    stepMoisture (.num 0.13) (.num 5) (.num 0) (.num 1) ≠ (0.13 : ℝ) := by
  have hval : stepMoisture (.num 0.13) (.num 5) (.num 0) (.num 1) = 0.1 := by
    unfold stepMoisture
    dsimp only [safeParse]
    rw [show max (0:ℝ) 0 = 0 from max_self 0, neg_zero, zero_div,
      Real.exp_zero]
    have harg : (5:ℝ) + (0.13 - 5) * 1 = 0.13 := by norm_num
    rw [harg]
    unfold round1
    have h13 : (10:ℝ) * 0.13 = 1.3 := by norm_num
    rw [h13]
    have hround : round ((1.3:ℝ)) = 1 := by
      rw [round_eq]
      have : ((1.3:ℝ) + 1 / 2) = 1.8 := by norm_num
      rw [this]
      apply Int.floor_eq_iff.mpr
      constructor <;> push_cast <;> norm_num
    rw [hround]
    norm_num
  rw [hval]
  norm_num

/-- C6 amended: at zero elapsed hours and tau > 0, `updateTowardEMC` returns
the previous moisture unchanged, while `stepMoisture` returns it rounded to
one decimal (hence unchanged exactly when it is a tenth-multiple). -/
theorem zero_elapsed_update (m e tau : ℝ) (htau : 0 < tau) :
    updateTowardEMC m e 0 tau = m ∧
    stepMoisture (.num m) (.num e) (.num 0) (.num tau) = round1 m := by
  constructor
  · unfold updateTowardEMC
    rw [if_neg (not_le.mpr htau), neg_zero, zero_div, Real.exp_zero]
    ring
  · unfold stepMoisture
    dsimp only [safeParse]
    rw [show max (0:ℝ) 0 = 0 from max_self 0, neg_zero, zero_div,
      Real.exp_zero]
    congr 1
    ring

/-- Witness for the amended C6 at m = 20, emc = 10, tau = 10. -/
theorem zero_elapsed_update_witness : updateTowardEMC 20 10 0 10 = 20 :=
  (zero_elapsed_update 20 10 10 (by norm_num)).1

/-! ### C7 — degenerate time constant -/

/-- C7: tau ≤ 0 takes the documented fallback in both variants:
`updateTowardEMC` short-circuits to the equilibrium value, and `stepMoisture`
floors tau to 0.0001 (so it behaves exactly as if tau were 0.0001); neither
divides by zero. -/
theorem degenerate_tau_fallback (m e dt tau : ℝ) (htau : tau ≤ 0) :
    updateTowardEMC m e dt tau = e ∧
    stepMoisture (.num m) (.num e) (.num dt) (.num tau) =
      stepMoisture (.num m) (.num e) (.num dt) (.num 0.0001) := by
  constructor
  · unfold updateTowardEMC
    rw [if_pos htau]
  · unfold stepMoisture
    dsimp only [safeParse]
    rw [show max (0.0001:ℝ) tau = 0.0001 from max_eq_left (by linarith),
      max_self]

/-- Witness for C7 at tau = −1. -/
theorem degenerate_tau_fallback_witness : updateTowardEMC 20 10 5 (-1) = 10 :=
  (degenerate_tau_fallback 20 10 5 (-1) (by norm_num)).1

/-! ### C8 — rainfall bucket boundaries -/

/-- C8: the rainfall heuristic uses strict `<` bucket thresholds: 0.05 inch
falls in the driest bucket, and the boundary value 0.10 inch falls in the
next bucket. -/
theorem initialMoistureFromRain_boundaries :
    initialMoistureFromRain 0.05 = { m1 := 18.0, m10 := 15.0, m100 := 14.0 } ∧
    initialMoistureFromRain 0.10 = { m1 := 22.0, m10 := 17.0, m100 := 14.5 } := by
  unfold initialMoistureFromRain
  constructor
  · rw [show max (0.0:ℝ) 0.05 = 0.05 from by norm_num,
      if_pos (show (0.05:ℝ) < 0.10 by norm_num)]
  · rw [show max (0.0:ℝ) 0.10 = 0.10 from by norm_num,
      if_neg (show ¬((0.10:ℝ) < 0.10) by norm_num),
      if_pos (show (0.10:ℝ) < 0.30 by norm_num)]

/-! ### C5 — monotonicity of the pasture-grass rate of spread -/

lemma moistureMultiplier_nonneg (m r k : ℝ) : 0 ≤ moistureMultiplier m r k :=
  le_trans (by norm_num) (le_max_left (0.05 : ℝ) _)

lemma windMultiplier_nonneg (w s : ℝ) : 0 ≤ windMultiplier w s :=
  le_trans (by norm_num) (le_max_left (0.5 : ℝ) _)

lemma slopeMultiplier_nonneg (s : ℝ) : 0 ≤ slopeMultiplier s :=
  le_trans (by norm_num) (le_max_left (1.0 : ℝ) _)

lemma windMultiplier_mono {s : ℝ} (hs : 0 ≤ s) {w w' : ℝ} (h : w ≤ w') :
    windMultiplier w s ≤ windMultiplier w' s := by
  unfold windMultiplier
  dsimp only
  have h1 : max 0.0 (max 0.0 w - 5.0) ≤ max 0.0 (max 0.0 w' - 5.0) :=
    max_le_max (le_refl _) (sub_le_sub_right (max_le_max (le_refl _) h) _)
  have h0 : (0 : ℝ) ≤ max 0.0 (max 0.0 w - 5.0) :=
    le_trans (by norm_num) (le_max_left (0.0 : ℝ) _)
  apply max_le_max (le_refl _)
  apply min_le_min (le_refl _)
  apply add_le_add_left
  apply mul_le_mul_of_nonneg_left _ hs
  apply Real.rpow_le_rpow (div_nonneg h0 (by norm_num))
    ((div_le_div_right (by norm_num)).mpr h1) (by norm_num)

lemma moistureMultiplier_anti {k : ℝ} (hk : 0 ≤ k) {r m m' : ℝ} (h : m ≤ m') :
    moistureMultiplier m' r k ≤ moistureMultiplier m r k := by
  unfold moistureMultiplier
  dsimp only
  apply max_le_max (le_refl _)
  apply min_le_min (le_refl _)
  apply Real.exp_le_exp.mpr
  have hmul : k * (m - r) ≤ k * (m' - r) :=
    mul_le_mul_of_nonneg_left (sub_le_sub_right h r) hk
  apply (div_le_div_right (show (0:ℝ) < 10.0 by norm_num)).mpr
  nlinarith [hmul]

/-- C5: for the pasture_grass preset, the rate of spread is non-decreasing in
wind speed at fixed moisture and slope, and non-increasing in 1-hr moisture at
fixed wind and slope. -/
theorem rosChPerHour_pasture_monotone :
    (∀ m1 slope w w' : ℝ, w ≤ w' →
      rosChPerHour pasture_grass m1 w slope ≤
        rosChPerHour pasture_grass m1 w' slope) ∧
    (∀ wind slope m1 m1' : ℝ, m1 ≤ m1' →
      rosChPerHour pasture_grass m1' wind slope ≤
        rosChPerHour pasture_grass m1 wind slope) := by
  constructor
  · intro m1 slope w w' h
    unfold rosChPerHour
    dsimp only
    apply max_le_max (le_refl _)
    have hmm : 0 ≤ pasture_grass.baseROS *
        moistureMultiplier m1 9.0 pasture_grass.moistureSensitivity :=
      mul_nonneg (by norm_num [pasture_grass]) (moistureMultiplier_nonneg _ _ _)
    refine mul_le_mul_of_nonneg_right ?_ (slopeMultiplier_nonneg _)
    exact mul_le_mul_of_nonneg_left
      (windMultiplier_mono (by norm_num [pasture_grass]) h) hmm
  · intro wind slope m1 m1' h
    unfold rosChPerHour
    dsimp only
    apply max_le_max (le_refl _)
    refine mul_le_mul_of_nonneg_right ?_ (slopeMultiplier_nonneg _)
    refine mul_le_mul_of_nonneg_right ?_ (windMultiplier_nonneg _ _)
    exact mul_le_mul_of_nonneg_left
      (moistureMultiplier_anti (by norm_num [pasture_grass]) h)
      (by norm_num [pasture_grass])

/-- Witness for C5: raising wind from 5 to 10 mph does not lower the rate of
spread, and raising moisture from 6 % to 12 % does not raise it. -/
theorem rosChPerHour_pasture_monotone_witness :
    rosChPerHour pasture_grass 9 5 0 ≤ rosChPerHour pasture_grass 9 10 0 ∧
    rosChPerHour pasture_grass 12 5 0 ≤ rosChPerHour pasture_grass 6 5 0 :=
  ⟨rosChPerHour_pasture_monotone.1 9 0 5 10 (by norm_num),
   rosChPerHour_pasture_monotone.2 5 0 6 12 (by norm_num)⟩

/-! ### C10 — one-decimal quantization -/

lemma isTenth_computeEMC (t h : JSVal) : isTenth (computeEMC t h) := by
  unfold computeEMC
  dsimp only
  exact isTenth_round1 _

lemma isTenth_stepMoisture (a b c d : JSVal) : isTenth (stepMoisture a b c d) := by
  unfold stepMoisture
  dsimp only
  exact isTenth_round1 _

lemma runModel_dailyResults (i1 i10 : JSVal) (es : List ForecastEntry) :
    (runModel i1 i10 es).dailyResults =
      runSteps (safeParse i1 8) (safeParse i10 10) 0 es := by
  unfold runModel
  dsimp only
  split <;> rfl

lemma isTenth_runSteps (es : List ForecastEntry) :
    ∀ (p1 p10 : ℝ) (idx : ℕ), ∀ d ∈ runSteps p1 p10 idx es,
      isTenth d.emc ∧ isTenth d.moisture1Hr ∧ isTenth d.moisture10Hr := by
  induction es with
  | nil =>
    intro p1 p10 idx d hd
    simp [runSteps] at hd
  | cons day rest ih =>
    intro p1 p10 idx d hd
    simp only [runSteps] at hd
    rcases List.mem_cons.mp hd with h | h
    · subst h
      unfold runStep
      dsimp only
      exact ⟨isTenth_computeEMC _ _, isTenth_stepMoisture _ _ _ _,
        isTenth_stepMoisture _ _ _ _⟩
    · exact ih _ _ _ d h

/-- C10: every per-day value the fuel-calculator variant reports is quantized
to one decimal place: `computeEMC` and `stepMoisture` round with one-decimal
precision, and every `runModel` daily row's EMC and 1-hr/10-hr moisture is an
integer multiple of 0.1 (the rounded value is also what feeds the next step,
by the shape of `runSteps`). -/
theorem fuel_calculator_outputs_quantized :
    (∀ t h : JSVal, isTenth (computeEMC t h)) ∧
    (∀ a b c d : JSVal, isTenth (stepMoisture a b c d)) ∧
    (∀ (i1 i10 : JSVal) (entries : List ForecastEntry),
      ∀ d ∈ (runModel i1 i10 entries).dailyResults,
        isTenth d.emc ∧ isTenth d.moisture1Hr ∧ isTenth d.moisture10Hr) := by
  refine ⟨isTenth_computeEMC, isTenth_stepMoisture, ?_⟩
  intro i1 i10 entries d hd
  rw [runModel_dailyResults] at hd
  exact isTenth_runSteps entries _ _ _ d hd

/-- Witness for C10 on a one-entry forecast. -/
theorem fuel_calculator_outputs_quantized_witness :
    isTenth ((runStep 8 10 0
      ⟨none, .num 90, .num 15, .num 5, .num 12⟩).moisture1Hr) :=
  (fuel_calculator_outputs_quantized.2.2 (.num 8) (.num 10)
    [⟨none, .num 90, .num 15, .num 5, .num 12⟩]
    (runStep 8 10 0 ⟨none, .num 90, .num 15, .num 5, .num 12⟩)
    (by rw [runModel_dailyResults]
        simp only [safeParse, runSteps]
        exact List.mem_cons_self _ _)).2.1

/-! ### C9 — fallback constants for invalid numeric fields -/

/-- A JavaScript value on which `safeParse` must resort to its fallback:
absent (null/undefined), a non-finite number, a string with no finite numeric
reading, or any other type. -/
def isInvalidNumeric : JSVal → Prop
  | .num _ => False
  | .str (some _) => False
  | _ => True

lemma safeParse_invalid {v : JSVal} (h : isInvalidNumeric v) (fb : ℝ) :
    safeParse v fb = fb := by
  cases v with
  | num x => exact absurd h (by simp [isInvalidNumeric])
  | str parsed =>
    cases parsed with
    | none => rfl
    | some n => exact absurd h (by simp [isInvalidNumeric])
  | nonfinite => rfl
  | nullOrUndef => rfl
  | other => rfl

lemma runSteps_length (es : List ForecastEntry) :
    ∀ (p1 p10 : ℝ) (idx : ℕ), (runSteps p1 p10 idx es).length = es.length := by
  induction es with
  | nil => intro p1 p10 idx; rfl
  | cons day rest ih =>
    intro p1 p10 idx
    simp only [runSteps, List.length_cons, ih]

/-- C9 counterexample: a forecast entry with all numeric fields absent is
recorded with temperature 70 °F but humidity 0 % and wind 0 mph — not the
50 % / 5 mph the claim states. -/
theorem runModel_fallback_constants_counterexample :
    ((runModel (.num 8) (.num 10)
        [⟨none, .nullOrUndef, .nullOrUndef, .nullOrUndef, .nullOrUndef⟩]).dailyResults.map
      (fun d => (d.temp, d.rh, d.wind))) = [((70 : ℝ), (0 : ℝ), (0 : ℝ))] ∧
    ((70 : ℝ), (0 : ℝ), (0 : ℝ)) ≠ ((70 : ℝ), (50 : ℝ), (5 : ℝ)) := by
  constructor
  · rw [runModel_dailyResults]
    simp only [safeParse, runSteps, List.map_cons, List.map_nil]
    unfold runStep
    dsimp only [safeParse, clamp]
    norm_num
  · intro h
    rw [Prod.mk.injEq, Prod.mk.injEq] at h
    norm_num at h

/-- C9 amended: for a forecast entry whose numeric fields are absent,
non-numeric, or non-finite, `runModel`'s per-entry step substitutes the
fallback constants actually used by the source — temperature 70 °F, humidity
0 % (the clamp's fallback is its lower bound), wind 0 mph, hours 12 — and the
model never propagates a fault: it is total and produces one daily row per
entry. -/
theorem runModel_invalid_input_defaults (prev1 prev10 : ℝ) (idx : ℕ)
    (e : ForecastEntry) (ht : isInvalidNumeric e.temp)
    (hh : isInvalidNumeric e.rh) (hw : isInvalidNumeric e.wind)
    (hhr : isInvalidNumeric e.hours) :
    (runStep prev1 prev10 idx e).temp = 70 ∧
    (runStep prev1 prev10 idx e).rh = 0 ∧
    (runStep prev1 prev10 idx e).wind = 0 ∧
    (runStep prev1 prev10 idx e).hours = 12 ∧
    (∀ (i1 i10 : JSVal) (entries : List ForecastEntry),
      ((runModel i1 i10 entries).dailyResults).length = entries.length) := by
  refine ⟨?_, ?_, ?_, ?_, ?_⟩
  · unfold runStep
    dsimp only
    rw [safeParse_invalid ht]
  · unfold runStep
    dsimp only
    unfold clamp
    rw [safeParse_invalid hh]
    norm_num
  · unfold runStep
    dsimp only
    rw [safeParse_invalid hw]
  · unfold runStep
    dsimp only
    rw [safeParse_invalid hhr]
    norm_num
  · intro i1 i10 entries
    rw [runModel_dailyResults]
    exact runSteps_length entries _ _ _

/-- Witness for the amended C9 on an entry with every field absent. -/
theorem runModel_invalid_input_defaults_witness :
    (runStep 8 10 0
      ⟨none, .nullOrUndef, .nullOrUndef, .nullOrUndef, .nullOrUndef⟩).temp = 70 :=
  (runModel_invalid_input_defaults 8 10 0
    ⟨none, .nullOrUndef, .nullOrUndef, .nullOrUndef, .nullOrUndef⟩
    trivial trivial trivial trivial).1

/-! ### C2 — runModel summary extraction -/

lemma find?_eq_some_split {α : Type} (p : α → Bool) (l : List α) (x : α)
    (h : l.find? p = some x) :
    p x = true ∧ ∃ pre post, l = pre ++ x :: post ∧ ∀ y ∈ pre, ¬(p y = true) := by
  induction l with
  | nil => simp at h
  | cons a as ih =>
    by_cases hp : p a = true
    · rw [List.find?_cons_of_pos _ hp] at h
      have hax : a = x := by injection h
      subst hax
      exact ⟨hp, [], as, rfl, by intro y hy; simp at hy⟩
    · rw [List.find?_cons_of_neg _ hp] at h
      obtain ⟨hx, pre, post, heq, hpre⟩ := ih h
      refine ⟨hx, a :: pre, post, by rw [heq]; rfl, ?_⟩
      intro y hy
      rcases List.mem_cons.mp hy with hrfl | hy
      · rw [hrfl]; exact hp
      · exact hpre y hy

lemma runModel_firstCritical (i1 i10 : JSVal) (es : List ForecastEntry) :
    (runModel i1 i10 es).summary.firstCritical1HrDay =
      ((runModel i1 i10 es).dailyResults.find?
        (fun d => decide (d.moisture1Hr ≤ 6))).map (fun d => d.day) := by
  rw [runModel_dailyResults]
  unfold runModel
  dsimp only
  split <;> rfl

lemma runModel_final_of_empty (i1 i10 : JSVal) (es : List ForecastEntry)
    (h : (runModel i1 i10 es).dailyResults = []) :
    (runModel i1 i10 es).summary.final1Hr = safeParse i1 8 ∧
    (runModel i1 i10 es).summary.final10Hr = safeParse i10 10 := by
  rw [runModel_dailyResults] at h
  unfold runModel
  dsimp only
  rw [h]
  exact ⟨rfl, rfl⟩

lemma runModel_final_of_last (i1 i10 : JSVal) (es : List ForecastEntry)
    (last : DailyResult)
    (h : (runModel i1 i10 es).dailyResults.getLast? = some last) :
    (runModel i1 i10 es).summary.final1Hr = last.moisture1Hr ∧
    (runModel i1 i10 es).summary.final10Hr = last.moisture10Hr := by
  rw [runModel_dailyResults] at h
  unfold runModel
  dsimp only
  rw [h]
  exact ⟨rfl, rfl⟩

/-- C2: `runModel`'s summary records as first critical day the label of the
first daily result (in input order) whose 1-hr moisture is ≤ 6 % (`none` if no
step crosses), and its final moisture values are those of the last daily
result, or the parsed initial values when the step sequence is empty. -/
theorem runModel_summary_spec (i1 i10 : JSVal) (es : List ForecastEntry) :
    ((runModel i1 i10 es).summary.firstCritical1HrDay = none ↔
      ∀ d ∈ (runModel i1 i10 es).dailyResults, 6 < d.moisture1Hr) ∧
    (∀ lbl, (runModel i1 i10 es).summary.firstCritical1HrDay = some lbl →
      ∃ pre d post, (runModel i1 i10 es).dailyResults = pre ++ d :: post ∧
        d.day = lbl ∧ d.moisture1Hr ≤ 6 ∧ ∀ x ∈ pre, 6 < x.moisture1Hr) ∧
    ((runModel i1 i10 es).dailyResults = [] →
      (runModel i1 i10 es).summary.final1Hr = safeParse i1 8 ∧
      (runModel i1 i10 es).summary.final10Hr = safeParse i10 10) ∧
    (∀ last, (runModel i1 i10 es).dailyResults.getLast? = some last →
      (runModel i1 i10 es).summary.final1Hr = last.moisture1Hr ∧
      (runModel i1 i10 es).summary.final10Hr = last.moisture10Hr) := by
  refine ⟨?_, ?_, runModel_final_of_empty i1 i10 es,
    fun last h => runModel_final_of_last i1 i10 es last h⟩
  · rw [runModel_firstCritical, Option.map_eq_none', List.find?_eq_none]
    constructor
    · intro h d hd
      have hn := h d hd
      simp only [decide_eq_true_eq] at hn
      exact not_le.mp hn
    · intro h d hd
      simp only [decide_eq_true_eq]
      exact not_le.mpr (h d hd)
  · intro lbl h
    rw [runModel_firstCritical, Option.map_eq_some'] at h
    obtain ⟨d, hfind, hday⟩ := h
    obtain ⟨hpd, pre, post, heq, hpre⟩ := find?_eq_some_split _ _ _ hfind
    refine ⟨pre, d, post, heq, hday, ?_, ?_⟩
    · simpa using hpd
    · intro x hx
      have hn := hpre x hx
      simp only [decide_eq_true_eq] at hn
      exact not_le.mp hn

/-- Witness for C2 on an empty forecast: the summary keeps the initial
moisture values. -/
theorem runModel_summary_spec_witness :
    (runModel (.num 8) (.num 10) []).summary.final1Hr = 8 ∧
    (runModel (.num 8) (.num 10) []).summary.final10Hr = 10 := by
  have h := (runModel_summary_spec (.num 8) (.num 10) []).2.2.1
    (by rw [runModel_dailyResults]; rfl)
  simpa [safeParse] using h

end FiveForks
